import Mathlib

/-!
Shallow embedding of the process lifecycle supervisor of the repository
(the module setupProcessLifecycle, bundled into packages/electron/src/cli.ts,
together with its helpers isParentOrphaned and isStdinConnected and the
event handlers it registers).

Modelling conventions:
- The mutable closure variables of setupProcessLifecycle (shuttingDown,
  parentWatcher, the checkCount counter of the interval callback) become
  fields of an explicit state record LMState.  The timer handle itself is
  modelled by a Bool field (parentWatcher) plus a counter of live interval
  timers (activeTimers), so that the at-most-one-timer property is a real
  statement and not baked into the type.
- Time is in milliseconds, as in the source (5000 ms cleanup deadline,
  100 ms flush delay, 2000 ms tick period).
- The asynchronous tail of shutdown (await Promise.race, then
  setTimeout(() => process.exit(code), 100)) is folded into the state: the
  behaviour of the external cleanup() promise is a parameter
  (CleanupBehavior), the outcome of the race is computed from it, and the
  scheduled process exit is recorded in exitScheduled as the exit code
  paired with the delay, in ms, from the start of the winning shutdown call.
- console.error output is recorded in the log field as short canonical
  lines (the dynamic parts, such as the logPrefix tag and error objects,
  are dropped).
- Environment reads done by the interval callback (process.ppid, the fstat
  probe of fd 0, the execSync ps query for the grandparent pid) are packaged
  in TickEnv; a failing execSync (process gone, timeout, error) is the
  error case of an Except.
-/

namespace Lifecycle

/-- Behaviour of the external serverInstance.cleanup() promise: it resolves
after t ms, rejects after t ms with some message, or never settles. -/
inductive CleanupBehavior where
  | resolves (t : Nat)
  | rejects (t : Nat) (msg : String)
  | hangs
deriving DecidableEq

/-- State of one ProcessLifecycleManager, plus the observables we track.
shuttingDown, parentWatcher and checkCount are the closure variables of
setupProcessLifecycle; activeTimers counts the live setInterval timers;
cleanupCalls counts invocations of serverInstance.cleanup();
onShutdownEvents records the (code, reason) arguments passed to the
onShutdown hook; exitScheduled records the pending process.exit as
(exit code, delay in ms from the start of the winning shutdown call). -/
structure LMState where
  shuttingDown : Bool
  parentWatcher : Bool
  activeTimers : Nat
  checkCount : Nat
  cleanupCalls : Nat
  onShutdownEvents : List (Int × Option String)
  exitScheduled : Option (Int × Nat)
  log : List String
deriving DecidableEq

/-- State of a freshly constructed manager: no shutdown, no watcher armed. -/
def initState : LMState :=
  { shuttingDown := false
    parentWatcher := false
    activeTimers := 0
    checkCount := 0
    cleanupCalls := 0
    onShutdownEvents := []
    exitScheduled := none
    log := [] }

/-- Duration, in ms, until await Promise.race([cleanup(), timeoutPromise])
settles: the cleanup settling time capped by the 5000 ms deadline. -/
def raceDuration : CleanupBehavior → Nat
  | CleanupBehavior.resolves t => min t 5000
  | CleanupBehavior.rejects t _ => min t 5000
  | CleanupBehavior.hangs => 5000

/-- Outcome of await Promise.race([cleanup(), timeoutPromise]): ok if
cleanup resolves within the 5000 ms deadline, otherwise the error that the
try/catch in shutdown catches (the cleanup rejection if it settles first,
else the timeout rejection). -/
def raceOutcome : CleanupBehavior → Except String Unit
  | CleanupBehavior.resolves t =>
      if t ≤ 5000 then Except.ok () else Except.error "Cleanup timeout after 5s"
  | CleanupBehavior.rejects t e =>
      if t ≤ 5000 then Except.error e else Except.error "Cleanup timeout after 5s"
  | CleanupBehavior.hangs => Except.error "Cleanup timeout after 5s"

/-- Log line produced by shutdown when a reason is supplied
(console.error Shutting down: reason). -/
def reasonLog : Option String → List String
  | some r => ["Shutting down: " ++ r]
  | none => []

/-- Log line produced by the catch branch of the cleanup race
(console.error Error during cleanup). -/
def raceLog (cb : CleanupBehavior) : List String :=
  match raceOutcome cb with
  | Except.ok _ => []
  | Except.error e => ["Error during cleanup: " ++ e]

/-- The shutdown(code, reason) function of setupProcessLifecycle.  Sequential
source effects, flattened into one record: if shuttingDown, return with no
change; else set shuttingDown, log the reason if present, clearInterval the
watcher if armed and null the handle, invoke onShutdown(code, reason), await
the cleanup race inside try/catch (a caught error is only logged), then
schedule process.exit(code) 100 ms after the race settles. -/
def shutdown (cb : CleanupBehavior) (code : Int) (reason : Option String)
    (s : LMState) : LMState :=
  if s.shuttingDown then s
  else
    { shuttingDown := true
      parentWatcher := false
      activeTimers := if s.parentWatcher then s.activeTimers - 1 else s.activeTimers
      checkCount := s.checkCount
      cleanupCalls := s.cleanupCalls + 1
      onShutdownEvents := s.onShutdownEvents ++ [(code, reason)]
      exitScheduled := some (code, raceDuration cb + 100)
      log := (s.log ++ reasonLog reason) ++ raceLog cb }

/-- Environment observed by one tick of the parent watcher interval. -/
structure TickEnv where
  ppid : Int
  stdinConnected : Bool
  gppidQuery : Except Unit Int

/-- The isParentOrphaned helper: skip when the direct parent pid is ≤ 1;
otherwise parse the grandparent pid from the ps query and detect when it is
1; any failure of the query (the catch branch) is a positive detection. -/
def isParentOrphaned (ppid : Int) (query : Except Unit Int) : Bool :=
  if ppid ≤ 1 then false
  else
    match query with
    | Except.ok g => g == 1
    | Except.error _ => true

/-- The setInterval callback installed by ensureParentWatcher: return at once
when shuttingDown; else increment checkCount, then run check 1 (ppid = 1),
check 2 (stdin probe), and, on every 5th tick only, check 3
(isParentOrphaned), stopping at the first positive detection, each of which
calls requestShutdown, i.e. the synchronous part of shutdown. -/
def parentWatcherTick (env : TickEnv) (cb : CleanupBehavior) (s : LMState) :
    LMState :=
  if s.shuttingDown then s
  else
    let s1 : LMState := { s with checkCount := s.checkCount + 1 }
    if env.ppid == 1 then
      shutdown cb 0 (some "parent exited")
        { s1 with log := s1.log ++ ["Parent process ended (ppid=1), shutting down..."] }
    else if !env.stdinConnected then
      shutdown cb 0 (some "stdin disconnected")
        { s1 with log := s1.log ++ ["stdin disconnected, shutting down..."] }
    else if s1.checkCount % 5 == 0 && isParentOrphaned env.ppid env.gppidQuery then
      shutdown cb 0 (some "parent orphaned")
        { s1 with log := s1.log ++ ["Parent process orphaned, shutting down..."] }
    else s1

/-- The ensureParentWatcher() function: if a watcher handle exists, return;
else create a fresh checkCount counter at 0 and install the interval. -/
def ensureParentWatcher (s : LMState) : LMState :=
  if s.parentWatcher then s
  else
    { s with
      parentWatcher := true
      activeTimers := s.activeTimers + 1
      checkCount := 0 }

/-- The cleanup() operation of the returned manager record (distinct from
serverInstance.cleanup()): clearInterval the watcher if armed and null the
handle; nothing else. -/
def cleanup (s : LMState) : LMState :=
  if s.parentWatcher then
    { s with parentWatcher := false, activeTimers := s.activeTimers - 1 }
  else s

/-- The unhandledRejection handler: log only, no other effect. -/
def unhandledRejection (s : LMState) : LMState :=
  { s with log := s.log ++ ["Unhandled Rejection"] }

/-- JS substring containment, error.message.includes(pat), as infix on the
character lists. -/
def containsSubstring (s pat : String) : Bool :=
  decide (pat.toList <:+: s.toList)

/-- The fatal classification of the uncaughtException handler: the message
is truthy (non-empty) and contains one of the three allow-listed substrings. -/
def isFatalError (msg : String) : Bool :=
  (msg != "") &&
    (containsSubstring msg "MCP Server failed to start" ||
      containsSubstring msg "Transport initialization failed" ||
      containsSubstring msg "EADDRINUSE")

/-- The uncaughtException handler: always log the exception and its stack;
when the message is classified fatal, requestShutdown(1, fatal exception),
else log that the exception is non-fatal and keep the process alive. -/
def uncaughtException (cb : CleanupBehavior) (msg : String) (s : LMState) :
    LMState :=
  let s1 : LMState := { s with log := s.log ++ ["Uncaught Exception", "Error stack"] }
  if isFatalError msg then
    shutdown cb 1 (some "fatal exception")
      { s1 with log := s1.log ++ ["Fatal server error detected, exiting..."] }
  else
    { s1 with log := s1.log ++ ["Non-fatal exception caught, MCP transport will remain active"] }

/-- The SIGINT handler: log and requestShutdown(0, SIGINT). -/
def onSigint (cb : CleanupBehavior) (s : LMState) : LMState :=
  shutdown cb 0 (some "SIGINT")
    { s with log := s.log ++ ["Received SIGINT, shutting down gracefully..."] }

/-- The SIGTERM handler: log and requestShutdown(0, SIGTERM). -/
def onSigterm (cb : CleanupBehavior) (s : LMState) : LMState :=
  shutdown cb 0 (some "SIGTERM")
    { s with log := s.log ++ ["Received SIGTERM, shutting down gracefully..."] }

/-- The SIGPIPE handler: log and requestShutdown(0, SIGPIPE). -/
def onSigpipe (cb : CleanupBehavior) (s : LMState) : LMState :=
  shutdown cb 0 (some "SIGPIPE")
    { s with log := s.log ++ ["Received SIGPIPE, shutting down..."] }

/-- The disconnect handler: log and requestShutdown(0, parent disconnect). -/
def onDisconnect (cb : CleanupBehavior) (s : LMState) : LMState :=
  shutdown cb 0 (some "parent disconnect")
    { s with log := s.log ++ ["Received disconnect, shutting down..."] }

/-- The stdin end handler: log and requestShutdown(0, stdin ended). -/
def onStdinEnd (cb : CleanupBehavior) (s : LMState) : LMState :=
  shutdown cb 0 (some "stdin ended")
    { s with log := s.log ++ ["stdin ended, shutting down..."] }

/-- Every entry point that can touch the manager state: a direct shutdown
call, a watcher tick, the two public manager operations, and the five
registered event handlers. -/
inductive Op where
  | shutdownOp (cb : CleanupBehavior) (code : Int) (reason : Option String)
  | tickOp (env : TickEnv) (cb : CleanupBehavior)
  | ensureOp
  | cleanupOp
  | rejectionOp
  | exceptionOp (cb : CleanupBehavior) (msg : String)
  | sigintOp (cb : CleanupBehavior)
  | sigtermOp (cb : CleanupBehavior)
  | sigpipeOp (cb : CleanupBehavior)
  | disconnectOp (cb : CleanupBehavior)
  | stdinEndOp (cb : CleanupBehavior)

/-- Dispatch of an entry point on the state. -/
def applyOp (op : Op) (s : LMState) : LMState :=
  match op with
  | Op.shutdownOp cb code reason => shutdown cb code reason s
  | Op.tickOp env cb => parentWatcherTick env cb s
  | Op.ensureOp => ensureParentWatcher s
  | Op.cleanupOp => cleanup s
  | Op.rejectionOp => unhandledRejection s
  | Op.exceptionOp cb msg => uncaughtException cb msg s
  | Op.sigintOp cb => onSigint cb s
  | Op.sigtermOp cb => onSigterm cb s
  | Op.sigpipeOp cb => onSigpipe cb s
  | Op.disconnectOp cb => onDisconnect cb s
  | Op.stdinEndOp cb => onStdinEnd cb s

/-- Folding a list of entry points over the state, oldest first. -/
def applyOps (ops : List Op) (s : LMState) : LMState :=
  ops.foldl (fun t op => applyOp op t) s

/-- One call of shutdown described by its data: the cleanup behaviour in
effect and the (code, reason) arguments. -/
def applyShutdowns (calls : List (CleanupBehavior × Int × Option String))
    (s : LMState) : LMState :=
  calls.foldl (fun t c => shutdown c.1 c.2.1 c.2.2 t) s

/-- Invariant tying the watcher handle to the number of live timers. -/
def timerInv (s : LMState) : Prop :=
  s.activeTimers = (if s.parentWatcher then 1 else 0)

theorem shutdown_flagged (cb : CleanupBehavior) (code : Int)
    (reason : Option String) (s : LMState) (h : s.shuttingDown = true) :
    shutdown cb code reason s = s := by
  simp [shutdown, h]

theorem shutdown_shuttingDown (cb : CleanupBehavior) (code : Int)
    (reason : Option String) (s : LMState) :
    (shutdown cb code reason s).shuttingDown = true ∨
      shutdown cb code reason s = s := by
  by_cases h : s.shuttingDown
  · exact Or.inr (shutdown_flagged cb code reason s h)
  · left
    simp [shutdown, h]

theorem applyOp_mono (op : Op) (s : LMState) (h : s.shuttingDown = true) :
    (applyOp op s).shuttingDown = true := by
  cases op <;>
    simp [applyOp, parentWatcherTick, ensureParentWatcher, cleanup,
      unhandledRejection, uncaughtException, onSigint, onSigterm, onSigpipe,
      onDisconnect, onStdinEnd, shutdown, h] <;>
    split <;> simp [h]

theorem applyOps_mono (ops : List Op) (s : LMState) (h : s.shuttingDown = true) :
    (applyOps ops s).shuttingDown = true := by
  induction ops generalizing s with
  | nil => exact h
  | cons op rest ih =>
      exact ih (applyOp op s) (applyOp_mono op s h)

theorem applyShutdowns_flagged (calls : List (CleanupBehavior × Int × Option String))
    (s : LMState) (h : s.shuttingDown = true) :
    applyShutdowns calls s = s := by
  induction calls with
  | nil => rfl
  | cons c rest ih =>
      show applyShutdowns rest (shutdown c.1 c.2.1 c.2.2 s) = s
      rw [shutdown_flagged c.1 c.2.1 c.2.2 s h]
      exact ih

theorem applyOp_timerInv (op : Op) (s : LMState) (h : timerInv s) :
    timerInv (applyOp op s) := by
  unfold timerInv at h ⊢
  cases op <;>
    simp only [applyOp, parentWatcherTick, ensureParentWatcher, cleanup,
      unhandledRejection, uncaughtException, onSigint, onSigterm, onSigpipe,
      onDisconnect, onStdinEnd, shutdown] <;>
    split_ifs <;>
    simp_all

theorem applyOps_timerInv (ops : List Op) (s : LMState) (h : timerInv s) :
    timerInv (applyOps ops s) := by
  induction ops generalizing s with
  | nil => exact h
  | cons op rest ih =>
      exact ih (applyOp op s) (applyOp_timerInv op s h)

/-- C2: in a winning shutdown call the cleanup race settles after
raceDuration cb ms, which never exceeds the 5000 ms deadline, the process
exit is scheduled 100 ms later with exactly the caller-supplied code, for
every behaviour of cleanup (resolve, reject, or hang), so the process
terminates at most 5100 ms after the shutdown trigger. -/
theorem shutdown_deadline (cb : CleanupBehavior) (code : Int)
    (reason : Option String) (s : LMState) (h : s.shuttingDown = false) :
    (shutdown cb code reason s).exitScheduled = some (code, raceDuration cb + 100) ∧
    raceDuration cb + 100 ≤ 5100 := by
  constructor
  · simp [shutdown, h]
  · cases cb <;> simp [raceDuration]

/-- Witness for C2: a hanging cleanup still yields a scheduled exit with the
caller code 3 after exactly 5100 ms. -/
theorem shutdown_deadline_witness :
    initState.shuttingDown = false ∧
    (shutdown CleanupBehavior.hangs 3 (some "SIGTERM") initState).exitScheduled =
      some (3, 5100) :=
  ⟨rfl, (shutdown_deadline CleanupBehavior.hangs 3 (some "SIGTERM") initState rfl).1⟩

/-- C4: isParentOrphaned returns false whenever the direct parent pid is
≤ 1; for a parent pid > 1 it returns true exactly when the queried
grandparent pid is 1, and returns true on every failure of the external
query. -/
theorem isParentOrphaned_spec (ppid : Int) (q : Except Unit Int) :
    (ppid ≤ 1 → isParentOrphaned ppid q = false) ∧
    (1 < ppid → q = Except.error () → isParentOrphaned ppid q = true) ∧
    (∀ g : Int, 1 < ppid → q = Except.ok g →
      (isParentOrphaned ppid q = true ↔ g = 1)) := by
  refine ⟨fun h => ?_, fun h hq => ?_, fun g h hq => ?_⟩
  · simp [isParentOrphaned, h]
  · subst hq
    simp [isParentOrphaned, not_le.mpr h]
  · subst hq
    simp [isParentOrphaned, not_le.mpr h]

/-- Witness for C4: concrete evaluations of the three cases. -/
theorem isParentOrphaned_spec_witness :
    isParentOrphaned 1 (Except.ok 1) = false ∧
    isParentOrphaned 42 (Except.error ()) = true ∧
    isParentOrphaned 42 (Except.ok 1) = true :=
  ⟨(isParentOrphaned_spec 1 (Except.ok 1)).1 (by decide),
    (isParentOrphaned_spec 42 (Except.error ())).2.1 (by decide) rfl,
    ((isParentOrphaned_spec 42 (Except.ok 1)).2.2 1 (by decide) rfl).mpr rfl⟩

/-- C7: the unhandledRejection handler appends a log line and leaves every
other component of the state unchanged: the flag, the watcher handle, the
timer count, the tick counter, the cleanup invocation count, the onShutdown
events and the scheduled exit; a rejection alone never starts shutdown. -/
theorem unhandledRejection_no_shutdown (s : LMState) :
    (unhandledRejection s).shuttingDown = s.shuttingDown ∧
    (unhandledRejection s).parentWatcher = s.parentWatcher ∧
    (unhandledRejection s).activeTimers = s.activeTimers ∧
    (unhandledRejection s).checkCount = s.checkCount ∧
    (unhandledRejection s).cleanupCalls = s.cleanupCalls ∧
    (unhandledRejection s).onShutdownEvents = s.onShutdownEvents ∧
    (unhandledRejection s).exitScheduled = s.exitScheduled ∧
    (unhandledRejection s).log = s.log ++ ["Unhandled Rejection"] := by
  simp [unhandledRejection]

/-- C8: the cleanup() operation of the manager clears the watcher handle
when armed (and only then releases the one timer), keeps the shuttingDown
flag at its prior value, requests no shutdown (no new onShutdown event, no
cleanup invocation, no scheduled exit), and is the identity when no watcher
is armed. -/
theorem cleanup_frame (s : LMState) :
    (s.parentWatcher = true →
      (cleanup s).parentWatcher = false ∧
      (cleanup s).activeTimers = s.activeTimers - 1) ∧
    (s.parentWatcher = false → cleanup s = s) ∧
    (cleanup s).shuttingDown = s.shuttingDown ∧
    (cleanup s).checkCount = s.checkCount ∧
    (cleanup s).cleanupCalls = s.cleanupCalls ∧
    (cleanup s).onShutdownEvents = s.onShutdownEvents ∧
    (cleanup s).exitScheduled = s.exitScheduled ∧
    (cleanup s).log = s.log := by
  by_cases h : s.parentWatcher <;> simp [cleanup, h]

/-- Witness for C8: on an armed manager, cleanup() clears the watcher and
does not flip the flag. -/
theorem cleanup_frame_witness :
    (ensureParentWatcher initState).parentWatcher = true ∧
    (cleanup (ensureParentWatcher initState)).parentWatcher = false ∧
    (cleanup (ensureParentWatcher initState)).shuttingDown = false :=
  ⟨by decide,
    ((cleanup_frame (ensureParentWatcher initState)).1 (by decide)).1,
    ((cleanup_frame (ensureParentWatcher initState)).2.2.1).trans (by decide)⟩

/-- C9: shutdown never propagates a cleanup failure to its caller: for
every behaviour of cleanup, including a rejection or a hang, the winning
call still reaches the exit-scheduling step with the caller code, a caught
race error is confined to the log, and a rejecting cleanup leaves every
non-log component equal to what a resolving cleanup of the same duration
leaves. -/
theorem shutdown_total (cb : CleanupBehavior) (code : Int)
    (reason : Option String) (s : LMState) (h : s.shuttingDown = false) :
    (shutdown cb code reason s).exitScheduled = some (code, raceDuration cb + 100) ∧
    (∀ e : String, raceOutcome cb = Except.error e →
      (shutdown cb code reason s).log =
        (s.log ++ reasonLog reason) ++ ["Error during cleanup: " ++ e]) ∧
    (∀ (t : Nat) (e : String),
      (shutdown (CleanupBehavior.rejects t e) code reason s).shuttingDown =
        (shutdown (CleanupBehavior.resolves t) code reason s).shuttingDown ∧
      (shutdown (CleanupBehavior.rejects t e) code reason s).cleanupCalls =
        (shutdown (CleanupBehavior.resolves t) code reason s).cleanupCalls ∧
      (shutdown (CleanupBehavior.rejects t e) code reason s).exitScheduled =
        (shutdown (CleanupBehavior.resolves t) code reason s).exitScheduled ∧
      (shutdown (CleanupBehavior.rejects t e) code reason s).onShutdownEvents =
        (shutdown (CleanupBehavior.resolves t) code reason s).onShutdownEvents ∧
      (shutdown (CleanupBehavior.rejects t e) code reason s).parentWatcher =
        (shutdown (CleanupBehavior.resolves t) code reason s).parentWatcher ∧
      (shutdown (CleanupBehavior.rejects t e) code reason s).activeTimers =
        (shutdown (CleanupBehavior.resolves t) code reason s).activeTimers) := by
  refine ⟨by simp [shutdown, h], fun e he => ?_, fun t e => ?_⟩
  · simp [shutdown, h, raceLog, he]
  · simp [shutdown, h, raceDuration]

/-- Witness for C9: a cleanup rejecting after 50 ms is caught; the exit is
still scheduled with the caller code 0 at 150 ms. -/
theorem shutdown_total_witness :
    initState.shuttingDown = false ∧
    (shutdown (CleanupBehavior.rejects 50 "boom") 0 none initState).exitScheduled =
      some (0, 150) :=
  ⟨rfl, (shutdown_total (CleanupBehavior.rejects 50 "boom") 0 none initState rfl).1⟩

/-- C1: the first shutdown call to see the flag clear sets it, invokes
cleanup exactly once, and schedules the exit with its own code; any list of
later shutdown calls leaves the state literally unchanged, and after any
list of further entry points of the manager the flag is still set. -/
theorem shutdown_at_most_once (s : LMState) (cb : CleanupBehavior) (code : Int)
    (reason : Option String) (h : s.shuttingDown = false) :
    (shutdown cb code reason s).shuttingDown = true ∧
    (shutdown cb code reason s).cleanupCalls = s.cleanupCalls + 1 ∧
    (shutdown cb code reason s).exitScheduled = some (code, raceDuration cb + 100) ∧
    (∀ calls : List (CleanupBehavior × Int × Option String),
      applyShutdowns calls (shutdown cb code reason s) = shutdown cb code reason s) ∧
    (∀ ops : List Op,
      (applyOps ops (shutdown cb code reason s)).shuttingDown = true) := by
  have h1 : (shutdown cb code reason s).shuttingDown = true := by
    simp [shutdown, h]
  exact ⟨h1, by simp [shutdown, h], by simp [shutdown, h],
    fun calls => applyShutdowns_flagged calls _ h1,
    fun ops => applyOps_mono ops _ h1⟩

/-- Witness for C1: after a first winning call, cleanup has run once and a
later call (even with a different code and behaviour) changes nothing. -/
theorem shutdown_at_most_once_witness :
    initState.shuttingDown = false ∧
    (shutdown (CleanupBehavior.resolves 10) 0 (some "SIGINT") initState).cleanupCalls = 1 ∧
    applyShutdowns [(CleanupBehavior.hangs, 1, some "fatal exception")]
      (shutdown (CleanupBehavior.resolves 10) 0 (some "SIGINT") initState) =
      shutdown (CleanupBehavior.resolves 10) 0 (some "SIGINT") initState :=
  ⟨rfl,
    (shutdown_at_most_once initState (CleanupBehavior.resolves 10) 0
      (some "SIGINT") rfl).2.1,
    (shutdown_at_most_once initState (CleanupBehavior.resolves 10) 0
      (some "SIGINT") rfl).2.2.2.1 [(CleanupBehavior.hangs, 1, some "fatal exception")]⟩

/-- C3: a tick with shutdown underway does nothing; otherwise the checks run
in order and stop at the first positive one: parent pid 1 requests shutdown
with code 0 and reason parent exited; else a failed stdin probe requests
code 0 and reason stdin disconnected; else, only when the incremented tick
counter is a multiple of 5 and isParentOrphaned is positive, shutdown is
requested with code 0 and reason parent orphaned; else the tick only
increments the counter. -/
theorem parentWatcherTick_spec (env : TickEnv) (cb : CleanupBehavior) (s : LMState) :
    (s.shuttingDown = true → parentWatcherTick env cb s = s) ∧
    (s.shuttingDown = false →
      (env.ppid = 1 →
        (parentWatcherTick env cb s).shuttingDown = true ∧
        (parentWatcherTick env cb s).onShutdownEvents =
          s.onShutdownEvents ++ [(0, some "parent exited")] ∧
        (parentWatcherTick env cb s).exitScheduled = some (0, raceDuration cb + 100)) ∧
      (env.ppid ≠ 1 → env.stdinConnected = false →
        (parentWatcherTick env cb s).shuttingDown = true ∧
        (parentWatcherTick env cb s).onShutdownEvents =
          s.onShutdownEvents ++ [(0, some "stdin disconnected")] ∧
        (parentWatcherTick env cb s).exitScheduled = some (0, raceDuration cb + 100)) ∧
      (env.ppid ≠ 1 → env.stdinConnected = true →
        (s.checkCount + 1) % 5 = 0 →
        isParentOrphaned env.ppid env.gppidQuery = true →
        (parentWatcherTick env cb s).shuttingDown = true ∧
        (parentWatcherTick env cb s).onShutdownEvents =
          s.onShutdownEvents ++ [(0, some "parent orphaned")] ∧
        (parentWatcherTick env cb s).exitScheduled = some (0, raceDuration cb + 100)) ∧
      (env.ppid ≠ 1 → env.stdinConnected = true →
        ¬((s.checkCount + 1) % 5 = 0 ∧ isParentOrphaned env.ppid env.gppidQuery = true) →
        parentWatcherTick env cb s = { s with checkCount := s.checkCount + 1 })) := by
  constructor
  · intro h
    simp [parentWatcherTick, h]
  · intro h
    refine ⟨fun hp => ?_, fun hp hs2 => ?_, fun hp hs2 hc ho => ?_, fun hp hs2 hno => ?_⟩
    · simp [parentWatcherTick, h, hp, shutdown]
    · simp [parentWatcherTick, h, hp, hs2, shutdown]
    · simp [parentWatcherTick, h, hp, hs2, hc, ho, shutdown]
    · have hcond :
          (((s.checkCount + 1) % 5 == 0) && isParentOrphaned env.ppid env.gppidQuery) = false := by
        rcases Bool.eq_false_or_eq_true (isParentOrphaned env.ppid env.gppidQuery) with hb | hb
        · have hc : ¬((s.checkCount + 1) % 5 = 0) := fun hc => hno ⟨hc, hb⟩
          simp [hb, hc]
        · simp [hb]
      simp [parentWatcherTick, h, hp, hs2, hcond]

/-- Witness for C3: on a tick with parent pid 1 and nothing else wrong, the
shutdown request carries code 0 and reason parent exited. -/
theorem parentWatcherTick_spec_witness :
    initState.shuttingDown = false ∧
    (parentWatcherTick ⟨1, true, Except.ok 5⟩ (CleanupBehavior.resolves 0)
      initState).onShutdownEvents = [((0 : Int), some "parent exited")] :=
  ⟨rfl,
    (((parentWatcherTick_spec ⟨1, true, Except.ok 5⟩ (CleanupBehavior.resolves 0)
      initState).2 rfl).1 rfl).2.1⟩

/-- Redundancy of the truthiness guard of the fatal classification: the
three allow-listed substrings are non-empty, so an empty message matches
none of them and the conjunct adds nothing. -/
theorem isFatalError_eq (msg : String) :
    isFatalError msg =
      (containsSubstring msg "MCP Server failed to start" ||
        containsSubstring msg "Transport initialization failed" ||
        containsSubstring msg "EADDRINUSE") := by
  by_cases h : msg = ""
  · subst h
    decide
  · have hne : (msg != "") = true := by
      simpa [bne_iff_ne] using h
    simp [isFatalError, hne]

/-- C5: an uncaught exception triggers shutdown exactly when its message
contains one of the three allow-listed substrings; a triggering exception
requests shutdown with code 1 and reason fatal exception and invokes
cleanup; a non-matching exception leaves every lifecycle component (flag,
watcher, timers, cleanup count, events, scheduled exit) unchanged. -/
theorem uncaughtException_spec (cb : CleanupBehavior) (msg : String) (s : LMState)
    (h : s.shuttingDown = false) :
    ((uncaughtException cb msg s).shuttingDown = true ↔
      (containsSubstring msg "MCP Server failed to start" ||
        containsSubstring msg "Transport initialization failed" ||
        containsSubstring msg "EADDRINUSE") = true) ∧
    (isFatalError msg = true →
      (uncaughtException cb msg s).onShutdownEvents =
        s.onShutdownEvents ++ [((1 : Int), some "fatal exception")] ∧
      (uncaughtException cb msg s).exitScheduled = some (1, raceDuration cb + 100) ∧
      (uncaughtException cb msg s).cleanupCalls = s.cleanupCalls + 1) ∧
    (isFatalError msg = false →
      (uncaughtException cb msg s).shuttingDown = false ∧
      (uncaughtException cb msg s).parentWatcher = s.parentWatcher ∧
      (uncaughtException cb msg s).activeTimers = s.activeTimers ∧
      (uncaughtException cb msg s).cleanupCalls = s.cleanupCalls ∧
      (uncaughtException cb msg s).onShutdownEvents = s.onShutdownEvents ∧
      (uncaughtException cb msg s).exitScheduled = s.exitScheduled) := by
  rcases Bool.eq_false_or_eq_true (isFatalError msg) with hf | hf
  · refine ⟨?_, fun _ => ?_, fun h2 => absurd (hf.symm.trans h2) (by simp)⟩
    · rw [← isFatalError_eq msg, hf]
      simp [uncaughtException, hf, shutdown, h]
    · simp [uncaughtException, hf, shutdown, h]
  · refine ⟨?_, fun h2 => absurd (hf.symm.trans h2) (by simp), fun _ => ?_⟩
    · rw [← isFatalError_eq msg, hf]
      simp [uncaughtException, hf, h]
    · simp [uncaughtException, hf, h]

/-- Witness for C5: a message containing EADDRINUSE triggers shutdown, an
unrelated message does not. -/
theorem uncaughtException_spec_witness :
    initState.shuttingDown = false ∧
    (uncaughtException (CleanupBehavior.resolves 0) "listen EADDRINUSE" initState).shuttingDown = true ∧
    (uncaughtException (CleanupBehavior.resolves 0) "window crashed" initState).shuttingDown = false :=
  ⟨rfl,
    ((uncaughtException_spec (CleanupBehavior.resolves 0) "listen EADDRINUSE"
      initState rfl).1).mpr (by decide),
    (((uncaughtException_spec (CleanupBehavior.resolves 0) "window crashed"
      initState rfl).2.2) (by decide)).1⟩

/-- C6: arming is idempotent: a second call is the identity, after any call
the watcher handle exists, N + 1 calls equal one call, and along every
sequence of entry points from the initial state at most one interval timer
is ever live. -/
theorem ensureParentWatcher_idempotent (s : LMState) :
    ensureParentWatcher (ensureParentWatcher s) = ensureParentWatcher s ∧
    (ensureParentWatcher s).parentWatcher = true ∧
    (∀ n : Nat, Nat.iterate ensureParentWatcher (n + 1) s = ensureParentWatcher s) ∧
    (∀ ops : List Op, (applyOps ops initState).activeTimers ≤ 1) := by
  have harmed : ∀ t : LMState, (ensureParentWatcher t).parentWatcher = true := by
    intro t
    by_cases ht : t.parentWatcher <;> simp [ensureParentWatcher, ht]
  have hfix : ∀ t : LMState, t.parentWatcher = true → ensureParentWatcher t = t := by
    intro t ht
    simp [ensureParentWatcher, ht]
  have h2 : ∀ t : LMState,
      ensureParentWatcher (ensureParentWatcher t) = ensureParentWatcher t :=
    fun t => hfix _ (harmed t)
  have h3 : ∀ (n : Nat) (t : LMState),
      Nat.iterate ensureParentWatcher n (ensureParentWatcher t) = ensureParentWatcher t := by
    intro n
    induction n with
    | zero => intro t; rfl
    | succ k ih =>
        intro t
        show Nat.iterate ensureParentWatcher k
          (ensureParentWatcher (ensureParentWatcher t)) = ensureParentWatcher t
        rw [h2 t]
        exact ih t
  refine ⟨h2 s, harmed s, fun n => h3 n s, fun ops => ?_⟩
  have hinv := applyOps_timerInv ops initState rfl
  unfold timerInv at hinv
  rw [hinv]
  split <;> simp

/-- C10: arming is not blocked by shutdown: with the flag set and no watcher
armed, ensureParentWatcher installs a fresh timer with its tick counter at
zero, and every subsequent tick of that timer is a no-op because the flag
is set. -/
theorem ensure_after_shutdown (s : LMState) (env : TickEnv) (cb : CleanupBehavior)
    (h1 : s.shuttingDown = true) (h2 : s.parentWatcher = false) :
    (ensureParentWatcher s).parentWatcher = true ∧
    (ensureParentWatcher s).activeTimers = s.activeTimers + 1 ∧
    (ensureParentWatcher s).checkCount = 0 ∧
    parentWatcherTick env cb (ensureParentWatcher s) = ensureParentWatcher s := by
  have hflag : (ensureParentWatcher s).shuttingDown = true := by
    simp [ensureParentWatcher, h2, h1]
  refine ⟨by simp [ensureParentWatcher, h2], by simp [ensureParentWatcher, h2],
    by simp [ensureParentWatcher, h2], ?_⟩
  simp [parentWatcherTick, hflag]

/-- Witness for C10: after a winning shutdown, re-arming installs a watcher
whose tick with parent pid 1 still does nothing. -/
theorem ensure_after_shutdown_witness :
    (shutdown (CleanupBehavior.resolves 0) 0 none initState).shuttingDown = true ∧
    (ensureParentWatcher (shutdown (CleanupBehavior.resolves 0) 0 none initState)).parentWatcher = true ∧
    parentWatcherTick ⟨1, true, Except.ok 1⟩ (CleanupBehavior.resolves 0)
      (ensureParentWatcher (shutdown (CleanupBehavior.resolves 0) 0 none initState)) =
      ensureParentWatcher (shutdown (CleanupBehavior.resolves 0) 0 none initState) :=
  ⟨rfl,
    (ensure_after_shutdown (shutdown (CleanupBehavior.resolves 0) 0 none initState)
      ⟨1, true, Except.ok 1⟩ (CleanupBehavior.resolves 0) rfl rfl).1,
    (ensure_after_shutdown (shutdown (CleanupBehavior.resolves 0) 0 none initState)
      ⟨1, true, Except.ok 1⟩ (CleanupBehavior.resolves 0) rfl rfl).2.2.2⟩

end Lifecycle
